import Mathlib

/-!
Verification of the process-lifecycle supervisor in
`packages/client/src-tauri/src/lib.rs` (octoprompt / Promptliano desktop shell).

The Rust source is shallowly embedded: each Tauri command becomes a Lean
function over an explicit `ServerState`, with the outcomes of external
effects (sidecar spawn, process kill, HTTP probe, event emission) passed in
as parameters so the command's own control flow can be proved about.
-/

deriving instance DecidableEq for Except

/-- An opaque identifier for a spawned OS child process
(`tauri_plugin_shell::process::CommandChild`). -/
structure ChildHandle where
  id : Nat
deriving DecidableEq, Repr

/-- `struct ServerState { child: Option<CommandChild> }` — the single
registry slot guarded by the `Mutex` in the source. -/
structure ServerState where
  child : Option ChildHandle
deriving DecidableEq, Repr

/-- Outcome of the external sidecar-resolution + `spawn()` call in
`start_promptliano_server`: either the OS creates a child process, or the
call fails with an error description (`e.to_string()` covers both the
`sidecar(..)` resolution error and the `spawn()` error). -/
inductive SpawnOutcome where
  | ok (c : ChildHandle)
  | err (msg : String)
deriving DecidableEq, Repr

/-- Observable result of one `start_promptliano_server` invocation:
the returned `Result<String, String>`, the registry state after the call,
how many times the external spawn call was issued (`spawnCalls`), and
whether an OS process was actually created (`processSpawned`). -/
structure StartResult where
  result : Except String String
  state : ServerState
  spawnCalls : Nat
  processSpawned : Bool
deriving DecidableEq, Repr

/-- `start_promptliano_server` (sequential semantics, lib.rs lines 17-95):
under the registry lock, if a handle is present return the
"already running" message with no spawn; otherwise issue the spawn
(outcome `o`), propagate a spawn error with the registry untouched, and on
success store the child under the lock and return the "starting" message. -/
def start_promptliano_server (o : SpawnOutcome) (s : ServerState) : StartResult :=
  if s.child.isSome then
    { result := .ok "Promptliano server is already running"
      state := s, spawnCalls := 0, processSpawned := false }
  else
    match o with
    | .err e =>
        { result := .error e, state := s, spawnCalls := 1, processSpawned := false }
    | .ok c =>
        { result := .ok "Promptliano server starting on port 3147"
          state := { child := some c }, spawnCalls := 1, processSpawned := true }

/-- Outcome of the external `child.kill()` call in `stop_promptliano_server`. -/
inductive KillOutcome where
  | ok
  | err (msg : String)
deriving DecidableEq, Repr

/-- Observable result of one `stop_promptliano_server` invocation: the
returned `Result<String, String>`, the registry state after the call, and
how many kill requests were issued. -/
structure StopResult where
  result : Except String String
  state : ServerState
  kills : Nat
deriving DecidableEq, Repr

/-- `stop_promptliano_server` (lib.rs lines 97-109): under one lock guard,
`state_guard.child.take()` removes the handle first; if one was present a
kill is issued (its error propagated with `?` — the handle stays removed
either way); if none was present, return the "was not running" message. -/
def stop_promptliano_server (k : KillOutcome) (s : ServerState) : StopResult :=
  match s.child with
  | some _ =>
    match k with
    | .ok =>
        { result := .ok "Promptliano server stopped", state := { child := none }, kills := 1 }
    | .err e =>
        { result := .error e, state := { child := none }, kills := 1 }
  | none =>
      { result := .ok "Promptliano server was not running", state := s, kills := 0 }

/-- An HTTP response as seen by `check_server_status`: only its status code
matters to the code. -/
structure HttpResponse where
  status : Nat
deriving DecidableEq, Repr

/-- Outcome of the `reqwest::get("http://localhost:3147/api/health")` call:
either a response arrived, or the request failed (connection refused,
timeout, malformed request, any `reqwest::Error`). -/
inductive ProbeOutcome where
  | response (r : HttpResponse)
  | failure (e : String)
deriving DecidableEq, Repr

/-- `http::StatusCode::is_success()`: status in the 2xx class. -/
def statusIsSuccess (s : Nat) : Bool := 200 ≤ s && s < 300

/-- `check_server_status` (lib.rs lines 111-126): `Ok(response)` maps to
`Ok(response.status().is_success())`; `Err(e)` maps to `Ok(false)`. -/
def check_server_status (o : ProbeOutcome) : Except String Bool :=
  match o with
  | .response r => .ok (statusIsSuccess r.status)
  | .failure _ => .ok false

/-- The configuration of the network request a probe issues: its URL and the
request timeout applied to it (`none` = no timeout configured). -/
structure RequestConfig where
  url : String
  timeout : Option Nat
deriving DecidableEq, Repr

/-- The probe issued by `check_server_status`: `reqwest::get(url)` uses the
library's default client, which configures no request timeout, so the
issued request carries `timeout := none`. -/
def healthProbeRequest : RequestConfig :=
  { url := "http://localhost:3147/api/health", timeout := none }

/-- Outcome of one `app_handle.emit(..)` call (delivery to the UI layer). -/
inductive EmitOutcome where
  | ok
  | err (msg : String)
deriving DecidableEq, Repr

/-- Result of applying Rust `Result::unwrap()`: the task continues with the
value, or panics (aborts the task) with the error's description. -/
inductive UnwrapResult (α : Type) where
  | value (a : α)
  | crashed (msg : String)
deriving DecidableEq, Repr

/-- The Output Monitor's handling of one emit result (lib.rs lines 76 and
87): the source calls `.unwrap()` on `app_handle.emit(..)`, so a delivery
failure panics the monitor task rather than being logged or ignored. -/
def handleEmitResult (o : EmitOutcome) : UnwrapResult Unit :=
  match o with
  | .ok => .value ()
  | .err e => .crashed e

/-- `fn greet` (lib.rs lines 12-14):
`format!("Hello, {}! You've been greeted from Rust!", name)`. -/
def greet (name : String) : String :=
  "Hello, " ++ name ++ "! You've been greeted from Rust!"

/-- `pat.isPrefixOf hay` at the character-list level, for modelling Rust's
`str::contains`. -/
def charsHaveSub (pat : List Char) : List Char → Bool
  | [] => pat.isEmpty
  | c :: rest => pat.isPrefixOf (c :: rest) || charsHaveSub pat rest

/-- Rust `str::contains(pat)`: some suffix of `s` starts with `pat`. -/
def strContainsSub (s pat : String) : Bool := charsHaveSub pat.data s.data

/-- The readiness test applied to each decoded stdout line
(lib.rs lines 68-72): the line contains one of the three fixed patterns. -/
def isReadyLine (l : String) : Bool :=
  strContainsSub l "Server running" || strContainsSub l "Listening on" ||
    strContainsSub l "[Server] Server running at"

/-- One event received from the child's `CommandEvent` stream; output lines
carry the text already decoded by `String::from_utf8_lossy` (decoding is
total, so it never aborts the monitor). `other` covers the unrecognized
event kinds matched by the source's `_ => {}` arm. -/
inductive CommandEvent where
  | stdout (line : String)
  | stderr (line : String)
  | terminated (code : Option Int)
  | other
deriving DecidableEq, Repr

/-- A notification emitted to the frontend by the Output Monitor:
`"promptliano-server-ready"` with unit payload, or
`"promptliano-server-terminated"` carrying the optional exit code. -/
inductive Notification where
  | serverReady
  | serverTerminated (code : Option Int)
deriving DecidableEq, Repr

/-- The Output Monitor loop (lib.rs lines 58-93) over the event stream:
given the current `server_ready` flag and the remaining events, returns the
list of emitted notifications and the final `server_ready` flag.
A matching stdout line while not ready sets the flag and emits
`serverReady`; stderr and unrecognized events emit nothing; a terminated
event emits `serverTerminated code` and breaks out of the loop. -/
def runMonitor (ready : Bool) : List CommandEvent → List Notification × Bool
  | [] => ([], ready)
  | .stdout l :: rest =>
    if !ready && isReadyLine l then
      let p := runMonitor true rest
      (.serverReady :: p.1, p.2)
    else
      runMonitor ready rest
  | .stderr _ :: rest => runMonitor ready rest
  | .terminated c :: _rest => ([.serverTerminated c], ready)
  | .other :: rest => runMonitor ready rest

/-- The Output Monitor's effect on the registry: the spawned async block
captures only `app_handle` (lib.rs line 55) and never touches the
`Mutex<ServerState>`, so its action on the registry is the identity. -/
def monitorRegistryEffect (s : ServerState) : ServerState := s

/-- Number of `serverReady` notifications in an emission list. -/
def readyCount (ns : List Notification) : Nat :=
  ns.countP fun n => decide (n = .serverReady)

/-- Number of `serverTerminated` notifications in an emission list. -/
def termCount (ns : List Notification) : Nat :=
  ns.countP fun n => match n with | .serverTerminated _ => true | _ => false

/-- `true` on events that neither match a readiness pattern nor terminate
the stream: non-matching stdout lines, all stderr lines, unrecognized
events. -/
def noReadySignal (e : CommandEvent) : Bool :=
  match e with
  | .stdout l => !isReadyLine l
  | .terminated _ => false
  | _ => true

/-- `true` on every event except a termination event. -/
def notTermination (e : CommandEvent) : Bool :=
  match e with
  | .terminated _ => false
  | _ => true

/-!
Interleaving model of `start_promptliano_server` for the concurrency claim.
The source takes the registry lock twice: once for the duplicate check
(lib.rs lines 25-31, a scoped guard that is dropped before the spawn) and
once to store the spawned child (lines 49-52). The spawn itself happens
between the two, outside any lock. Each lock-protected section and the
spawn are therefore separate atomic steps of one `start` thread.
-/

/-- Program counter of one thread executing `start_promptliano_server`:
about to run the locked duplicate check; about to spawn (lock released);
about to store the spawned child under the lock; or finished with a
result. -/
inductive StartPC where
  | checkPhase
  | spawnPhase
  | storePhase (c : ChildHandle)
  | finished (r : Except String String)
deriving DecidableEq, Repr

/-- One atomic step of a `start` thread with spawn outcome `o`: takes the
shared registry slot, the thread's program counter and the count of OS
processes created so far; returns their updated values. The check and the
store each hold the lock by themselves; the spawn runs unlocked and
increments the process count when the OS creates a child. -/
def stepStart (o : SpawnOutcome) (reg : Option ChildHandle) (pc : StartPC) (n : Nat) :
    Option ChildHandle × StartPC × Nat :=
  match pc with
  | .checkPhase =>
    if reg.isSome then
      (reg, .finished (.ok "Promptliano server is already running"), n)
    else
      (reg, .spawnPhase, n)
  | .spawnPhase =>
    match o with
    | .err e => (reg, .finished (.error e), n)
    | .ok c => (reg, .storePhase c, n + 1)
  | .storePhase c =>
      (some c, .finished (.ok "Promptliano server starting on port 3147"), n)
  | .finished r => (reg, .finished r, n)

/-- State of two concurrent `start` invocations sharing the registry:
the registry slot, each thread's program counter, and the total number of
OS processes created. -/
structure Conc2 where
  reg : Option ChildHandle
  pc1 : StartPC
  pc2 : StartPC
  spawned : Nat
deriving DecidableEq, Repr

/-- Scheduler step: `true` runs thread 1 (spawn outcome `o1`) for one
atomic step, `false` runs thread 2 (spawn outcome `o2`). -/
def stepSys (o1 o2 : SpawnOutcome) (s : Conc2) (who : Bool) : Conc2 :=
  if who then
    match stepStart o1 s.reg s.pc1 s.spawned with
    | (r, p, n) => { reg := r, pc1 := p, pc2 := s.pc2, spawned := n }
  else
    match stepStart o2 s.reg s.pc2 s.spawned with
    | (r, p, n) => { reg := r, pc1 := s.pc1, pc2 := p, spawned := n }

/-- Run a schedule (list of thread choices) from a system state. -/
def runSched (o1 o2 : SpawnOutcome) (s : Conc2) : List Bool → Conc2
  | [] => s
  | w :: ws => runSched o1 o2 (stepSys o1 o2 s w) ws

/-- Both threads about to start, empty registry, no process created. -/
def initConc : Conc2 :=
  { reg := none, pc1 := .checkPhase, pc2 := .checkPhase, spawned := 0 }

/-- The interleaving in which both duplicate checks run before either
spawn: check₁, check₂, spawn₁, store₁, spawn₂, store₂. -/
def doubleSpawnSched : List Bool := [true, false, true, true, false, false]

/-- `readyCount` steps over a `serverReady` head. -/
theorem readyCount_cons_ready (xs : List Notification) :
    readyCount (.serverReady :: xs) = readyCount xs + 1 := by
  simp [readyCount, List.countP_cons]

/-- `readyCount` ignores a `serverTerminated` head. -/
theorem readyCount_cons_term (c : Option Int) (xs : List Notification) :
    readyCount (.serverTerminated c :: xs) = readyCount xs := by
  simp [readyCount, List.countP_cons]

/-- `termCount` ignores a `serverReady` head. -/
theorem termCount_cons_ready (xs : List Notification) :
    termCount (.serverReady :: xs) = termCount xs := by
  simp [termCount, List.countP_cons]

/-- `termCount` steps over a `serverTerminated` head. -/
theorem termCount_cons_term (c : Option Int) (xs : List Notification) :
    termCount (.serverTerminated c :: xs) = termCount xs + 1 := by
  simp [termCount, List.countP_cons]

/-- Once the `server_ready` latch is set, the monitor never emits another
`serverReady` notification and the flag stays `true`. -/
theorem runMonitor_ready_latched (evts : List CommandEvent) :
    readyCount (runMonitor true evts).1 = 0 ∧ (runMonitor true evts).2 = true := by
  induction evts with
  | nil => simp [runMonitor, readyCount]
  | cons e rest ih =>
    cases e with
    | stdout l => simpa [runMonitor] using ih
    | stderr l => simpa [runMonitor] using ih
    | terminated c => simp [runMonitor, readyCount]
    | other => simpa [runMonitor] using ih

/-- Any monitoring session emits at most one `serverReady` notification. -/
theorem runMonitor_readyCount_le_one (r : Bool) (evts : List CommandEvent) :
    readyCount (runMonitor r evts).1 ≤ 1 := by
  cases r with
  | true => exact le_of_eq_of_le (runMonitor_ready_latched evts).1 (by omega)
  | false =>
    induction evts with
    | nil => simp [runMonitor, readyCount]
    | cons e rest ih =>
      cases e with
      | stdout l =>
        by_cases hl : isReadyLine l = true
        · have h0 := (runMonitor_ready_latched rest).1
          simp [runMonitor, hl, readyCount_cons_ready, h0]
        · simp only [Bool.not_eq_true] at hl
          simpa [runMonitor, hl] using ih
      | stderr l => simpa [runMonitor] using ih
      | terminated c => simp [runMonitor, readyCount]
      | other => simpa [runMonitor] using ih

/-- Processing a termination-free block of events then more events is the
same as processing the block, then the rest from the resulting flag, with
the emissions concatenated. -/
theorem runMonitor_append :
    ∀ (pre : List CommandEvent), pre.all notTermination = true →
      ∀ (r : Bool) (evts : List CommandEvent),
        runMonitor r (pre ++ evts)
          = ((runMonitor r pre).1 ++ (runMonitor (runMonitor r pre).2 evts).1,
             (runMonitor (runMonitor r pre).2 evts).2) := by
  intro pre
  induction pre with
  | nil => intro _ r evts; simp [runMonitor]
  | cons e rest ih =>
    intro h r evts
    rw [List.all_cons, Bool.and_eq_true] at h
    obtain ⟨he, hrest⟩ := h
    cases e with
    | stdout l =>
      by_cases hb : (!r && isReadyLine l) = true
      · simp [runMonitor, hb, ih hrest true]
      · simp only [Bool.not_eq_true] at hb
        simp [runMonitor, hb, ih hrest r]
    | stderr l => simpa [runMonitor] using ih hrest r evts
    | terminated c => simp [notTermination] at he
    | other => simpa [runMonitor] using ih hrest r evts

/-- A block of events with no readiness signal and no termination leaves a
not-ready session exactly as it was: nothing emitted, flag still false. -/
theorem runMonitor_no_signal :
    ∀ (pre : List CommandEvent), pre.all noReadySignal = true →
      runMonitor false pre = ([], false) := by
  intro pre
  induction pre with
  | nil => intro _; simp [runMonitor]
  | cons e rest ih =>
    intro h
    rw [List.all_cons, Bool.and_eq_true] at h
    obtain ⟨he, hrest⟩ := h
    cases e with
    | stdout l =>
      simp only [noReadySignal, Bool.not_eq_true'] at he
      simpa [runMonitor, he] using ih hrest
    | stderr l => simpa [runMonitor] using ih hrest
    | terminated c => simp [noReadySignal] at he
    | other => simpa [runMonitor] using ih hrest

/-- An event that carries no readiness signal is in particular not a
termination event. -/
theorem noReadySignal_notTermination (pre : List CommandEvent)
    (h : pre.all noReadySignal = true) : pre.all notTermination = true := by
  rw [List.all_eq_true] at h ⊢
  intro x hx
  have hp := h x hx
  cases x <;> simp_all [noReadySignal, notTermination]

/-- A termination-free block of events produces no `serverTerminated`
notification. -/
theorem termCount_no_termination :
    ∀ (pre : List CommandEvent), pre.all notTermination = true →
      ∀ (r : Bool), termCount (runMonitor r pre).1 = 0 := by
  intro pre
  induction pre with
  | nil => intro _ r; simp [runMonitor, termCount]
  | cons e rest ih =>
    intro h r
    rw [List.all_cons, Bool.and_eq_true] at h
    obtain ⟨he, hrest⟩ := h
    cases e with
    | stdout l =>
      by_cases hb : (!r && isReadyLine l) = true
      · have h0 := ih hrest true
        simp [runMonitor, hb, termCount_cons_ready, h0]
      · simp only [Bool.not_eq_true] at hb
        simpa [runMonitor, hb] using ih hrest r
    | stderr l => simpa [runMonitor] using ih hrest r
    | terminated c => simp [notTermination] at he
    | other => simpa [runMonitor] using ih hrest r

/-- `termCount` distributes over concatenation. -/
theorem termCount_append (a b : List Notification) :
    termCount (a ++ b) = termCount a + termCount b := by
  simp [termCount, List.countP_append]

/-- C2: in one monitoring session the monitor emits `serverReady` at most
once; it emits it exactly on the first stdout line containing a readiness
pattern (events before it carrying no readiness signal contribute
nothing); and once the ready latch is set, no further `serverReady` is
emitted and the flag never returns to not-ready. -/
theorem c2_server_ready_emitted_exactly_once (evts pre rest : List CommandEvent) (l : String) :
    readyCount (runMonitor false evts).1 ≤ 1 ∧
    (pre.all noReadySignal = true → isReadyLine l = true →
      runMonitor false (pre ++ CommandEvent.stdout l :: rest)
        = (Notification.serverReady :: (runMonitor true rest).1, (runMonitor true rest).2)) ∧
    readyCount (runMonitor true rest).1 = 0 ∧
    (runMonitor true rest).2 = true := by
  refine ⟨runMonitor_readyCount_le_one false evts, ?_, (runMonitor_ready_latched rest).1,
    (runMonitor_ready_latched rest).2⟩
  intro hpre hl
  rw [runMonitor_append pre (noReadySignal_notTermination pre hpre) false
      (CommandEvent.stdout l :: rest), runMonitor_no_signal pre hpre]
  simp [runMonitor, hl]

/-- Witness for C2: a boot line and a stderr line, then a "Listening on"
line, then another matching line and a termination event — exactly one
`serverReady` is emitted, at the first match. -/
theorem c2_server_ready_emitted_exactly_once_witness :
    ([CommandEvent.stdout "booting", CommandEvent.stderr "warn"].all noReadySignal = true) ∧
    isReadyLine "Listening on http://localhost:3147" = true ∧
    runMonitor false
        ([CommandEvent.stdout "booting", CommandEvent.stderr "warn"]
          ++ CommandEvent.stdout "Listening on http://localhost:3147"
            :: [CommandEvent.stdout "Server running", CommandEvent.terminated (some 0)])
      = (Notification.serverReady
          :: (runMonitor true
                [CommandEvent.stdout "Server running", CommandEvent.terminated (some 0)]).1,
         (runMonitor true
            [CommandEvent.stdout "Server running", CommandEvent.terminated (some 0)]).2) :=
  ⟨by decide, by decide,
   (c2_server_ready_emitted_exactly_once []
      [CommandEvent.stdout "booting", CommandEvent.stderr "warn"]
      [CommandEvent.stdout "Server running", CommandEvent.terminated (some 0)]
      "Listening on http://localhost:3147").2.1 (by decide) (by decide)⟩

/-- C8: when a termination event arrives after a termination-free block of
events, the monitor emits exactly one `serverTerminated` carrying that
event's optional exit code and ends — the events after the termination
event are never processed (the result does not depend on `rest`) — and the
monitor's effect on the registry is the identity (it never clears
`child_handle`). -/
theorem c8_terminated_emits_once_then_ends (r : Bool) (c : Option Int)
    (pre rest : List CommandEvent) (s : ServerState)
    (h : pre.all notTermination = true) :
    runMonitor r (pre ++ CommandEvent.terminated c :: rest)
      = ((runMonitor r pre).1 ++ [Notification.serverTerminated c], (runMonitor r pre).2) ∧
    termCount ((runMonitor r pre).1 ++ [Notification.serverTerminated c]) = 1 ∧
    monitorRegistryEffect s = s := by
  refine ⟨?_, ?_, rfl⟩
  · rw [runMonitor_append pre h r (CommandEvent.terminated c :: rest)]
    simp [runMonitor]
  · rw [termCount_append, termCount_no_termination pre h r, termCount_cons_term]
    simp [termCount]

/-- Witness for C8: readiness output then termination with exit code 0,
followed by a junk event that is never processed. -/
theorem c8_terminated_emits_once_then_ends_witness :
    ([CommandEvent.stdout "Listening on port 3147"].all notTermination = true) ∧
    runMonitor false
        ([CommandEvent.stdout "Listening on port 3147"]
          ++ CommandEvent.terminated (some 0) :: [CommandEvent.stdout "late line"])
      = ((runMonitor false [CommandEvent.stdout "Listening on port 3147"]).1
          ++ [Notification.serverTerminated (some 0)],
         (runMonitor false [CommandEvent.stdout "Listening on port 3147"]).2) :=
  ⟨by decide,
   (c8_terminated_emits_once_then_ends false (some 0)
      [CommandEvent.stdout "Listening on port 3147"] [CommandEvent.stdout "late line"]
      ⟨none⟩ (by decide)).1⟩

/-- Counterexample for C9: in the interleaving check₁, check₂, spawn₁,
store₁ the registry tracks handle 1 while thread 2 still stands at its
spawn step with one process created; completing the schedule creates a
second process (spawned = 2) and both calls return the "starting" message —
so start's inspect and mutate are not one critical section and a concurrent
interleaving does spawn a second process while one is tracked. -/
theorem c9_counterexample_double_spawn :
    (runSched (.ok ⟨1⟩) (.ok ⟨2⟩) initConc [true, false, true, true]).reg = some ⟨1⟩ ∧
    (runSched (.ok ⟨1⟩) (.ok ⟨2⟩) initConc [true, false, true, true]).pc2
      = StartPC.spawnPhase ∧
    (runSched (.ok ⟨1⟩) (.ok ⟨2⟩) initConc [true, false, true, true]).spawned = 1 ∧
    (runSched (.ok ⟨1⟩) (.ok ⟨2⟩) initConc doubleSpawnSched).spawned = 2 ∧
    (runSched (.ok ⟨1⟩) (.ok ⟨2⟩) initConc doubleSpawnSched).pc1
      = StartPC.finished (.ok "Promptliano server starting on port 3147") ∧
    (runSched (.ok ⟨1⟩) (.ok ⟨2⟩) initConc doubleSpawnSched).pc2
      = StartPC.finished (.ok "Promptliano server starting on port 3147") := by
  decide

/-- C9 as amended: each individual registry access of `start` is atomic —
a check that observes a tracked handle returns "already running" with no
spawn and no registry change — but `start`'s check and store are two
separate critical sections with the spawn outside the lock, so the
interleaving in which both checks precede both spawns creates two
processes. `stop`'s check-then-kill does run in one critical section (one
lock guard spans the whole body), modelled as a single atomic operation
that removes the handle and issues its one kill together. -/
theorem c9_start_critical_sections_split (o : SpawnOutcome) (c : ChildHandle)
    (n : Nat) (k : KillOutcome) :
    stepStart o (some c) .checkPhase n
      = (some c, .finished (.ok "Promptliano server is already running"), n) ∧
    (runSched (.ok ⟨1⟩) (.ok ⟨2⟩) initConc doubleSpawnSched).spawned = 2 ∧
    (runSched (.ok ⟨1⟩) (.ok ⟨2⟩) initConc doubleSpawnSched).reg = some ⟨2⟩ ∧
    ((stop_promptliano_server k ⟨some c⟩).state = ⟨none⟩ ∧
      (stop_promptliano_server k ⟨some c⟩).kills = 1) :=
  ⟨rfl, by decide, by decide, by cases k <;> simp [stop_promptliano_server]⟩

/-- C1: starting from an empty registry, when the first `start` succeeds it
spawns exactly one process; a second `start` with no intervening `stop`
finds the handle present, returns `Ok` with the "already running" message,
issues no spawn call, creates no process, and leaves the registry
unchanged. -/
theorem c1_second_start_is_noop (o1 o2 : SpawnOutcome)
    (h : ∃ m, (start_promptliano_server o1 ⟨none⟩).result = Except.ok m) :
    (start_promptliano_server o1 ⟨none⟩).processSpawned = true ∧
    (start_promptliano_server o1 ⟨none⟩).spawnCalls = 1 ∧
    (start_promptliano_server o2 (start_promptliano_server o1 ⟨none⟩).state).result
      = Except.ok "Promptliano server is already running" ∧
    (start_promptliano_server o2 (start_promptliano_server o1 ⟨none⟩).state).spawnCalls = 0 ∧
    (start_promptliano_server o2 (start_promptliano_server o1 ⟨none⟩).state).processSpawned
      = false ∧
    (start_promptliano_server o2 (start_promptliano_server o1 ⟨none⟩).state).state
      = (start_promptliano_server o1 ⟨none⟩).state := by
  cases o1 with
  | ok c => simp [start_promptliano_server]
  | err e =>
    obtain ⟨m, hm⟩ := h
    simp [start_promptliano_server] at hm

/-- Witness for C1 at the concrete spawn outcomes `ok ⟨1⟩` then `ok ⟨2⟩`. -/
theorem c1_second_start_is_noop_witness :
    (∃ m, (start_promptliano_server (.ok ⟨1⟩) ⟨none⟩).result = Except.ok m) ∧
    (start_promptliano_server (.ok ⟨2⟩)
        (start_promptliano_server (.ok ⟨1⟩) ⟨none⟩).state).result
      = Except.ok "Promptliano server is already running" :=
  ⟨⟨"Promptliano server starting on port 3147", rfl⟩,
   (c1_second_start_is_noop (.ok ⟨1⟩) (.ok ⟨2⟩)
     ⟨"Promptliano server starting on port 3147", rfl⟩).2.2.1⟩

/-- C3 (code behaviour at the failing input): the Output Monitor applies
`.unwrap()` to each `app_handle.emit(..)` result, so any delivery failure
panics (aborts) the monitor task instead of being logged or ignored — the
abort-on-emission-failure branch is present and reachable. -/
theorem c3_emit_failure_panics_monitor :
    handleEmitResult (.err "event delivery failed") = .crashed "event delivery failed" ∧
    ∀ e, handleEmitResult (.err e) = UnwrapResult.crashed e :=
  ⟨rfl, fun _ => rfl⟩

/-- C4: `stop` removes the handle before attempting the kill, so even a
failed kill leaves the registry empty and returns `Err` with the kill
error; a subsequent `stop` then reports "was not running"; and `stop` on an
empty registry returns `Ok "was not running"` with no kill issued. -/
theorem c4_stop_releases_handle_first (c : ChildHandle) (e : String) (k k2 : KillOutcome) :
    (stop_promptliano_server k ⟨some c⟩).state = ⟨none⟩ ∧
    (stop_promptliano_server k ⟨some c⟩).kills = 1 ∧
    (stop_promptliano_server (.err e) ⟨some c⟩).result = Except.error e ∧
    (stop_promptliano_server k2 (stop_promptliano_server (.err e) ⟨some c⟩).state).result
      = Except.ok "Promptliano server was not running" ∧
    stop_promptliano_server k2 ⟨none⟩
      = ⟨Except.ok "Promptliano server was not running", ⟨none⟩, 0⟩ := by
  cases k <;> cases k2 <;> simp [stop_promptliano_server]

/-- C5: `check_server_status` always returns `Ok`; the boolean is `true`
exactly when the probe produced a response with a 2xx status, and `false`
on every request failure. -/
theorem c5_check_status_never_errors (o : ProbeOutcome) (r : HttpResponse) (e : String) :
    (∃ b, check_server_status o = Except.ok b) ∧
    (∀ msg, check_server_status o ≠ Except.error msg) ∧
    (check_server_status (.response r) = Except.ok true ↔ 200 ≤ r.status ∧ r.status < 300) ∧
    check_server_status (.failure e) = Except.ok false := by
  refine ⟨?_, ?_, ?_, rfl⟩
  · cases o <;> exact ⟨_, rfl⟩
  · intro msg
    cases o <;> simp [check_server_status]
  · simp [check_server_status, statusIsSuccess, Bool.and_eq_true, decide_eq_true_iff]

/-- C6 (code behaviour): the health probe issued by `check_server_status`
is `reqwest::get` with the default client, which applies no request
timeout — `timeout = none`, contradicting the claim that a short timeout
bounds the call. -/
theorem c6_health_probe_has_no_timeout :
    healthProbeRequest.timeout = none ∧
    healthProbeRequest.url = "http://localhost:3147/api/health" :=
  ⟨rfl, rfl⟩

/-- C7: when the registry is empty and the spawn fails, `start` returns
`Err` carrying the failure description, creates no process, and leaves the
registry state exactly as it was (still empty). -/
theorem c7_spawn_failure_leaves_registry_empty (e : String) (s : ServerState)
    (h : s.child = none) :
    (start_promptliano_server (.err e) s).result = Except.error e ∧
    (start_promptliano_server (.err e) s).state = s ∧
    (start_promptliano_server (.err e) s).state.child = none ∧
    (start_promptliano_server (.err e) s).processSpawned = false := by
  cases s with
  | mk child =>
    simp only [ServerState.mk.injEq] at h
    subst h
    simp [start_promptliano_server]

/-- Witness for C7 at the empty registry and a concrete spawn error. -/
theorem c7_spawn_failure_leaves_registry_empty_witness :
    (ServerState.mk none).child = none ∧
    (start_promptliano_server (.err "No such file or directory") ⟨none⟩).result
      = Except.error "No such file or directory" :=
  ⟨rfl, (c7_spawn_failure_leaves_registry_empty "No such file or directory" ⟨none⟩ rfl).1⟩

/-- C10: `greet` returns exactly `"Hello, <name>! You've been greeted from
Rust!"`; it takes no supervisor state and is a pure function of its
argument. -/
theorem c10_greet_formats_name (name : String) :
    greet name = "Hello, " ++ name ++ "! You've been greeted from Rust!" ∧
    greet "World" = "Hello, World! You've been greeted from Rust!" :=
  ⟨rfl, by decide⟩
